import Mathlib

/-!
Verification development for the campus-administration assistant repository
(files `tools.py`, `agent.py`, `main.py`, `db.py`).

The student-record tools of `tools.py` are modelled as pure functions over an
explicit store state (a list of student documents in insertion order, matching
the document store's natural order for unsorted `find_one` queries).  Python
strings are modelled as Lean `String` with explicit ASCII models of
`str.lower`, `str.strip` and `int(...)`.  The `_id` bookkeeping of the source
(stringifying the store-internal object id on returned documents) carries no
information used by any lookup or update and is elided from the returned
payloads.
-/

/-! ## ASCII model of the Python string primitives used by the source -/

/-- Model of the whitespace class used by Python `str.strip()` (ASCII range). -/
def isSpaceCh (c : Char) : Bool :=
  c == ' ' || c == '\t' || c == '\n' || c == '\r' || c == '\x0b' || c == '\x0c'

/-- Model of Python `str.lower()` on a single character (ASCII range). -/
def toLowerCh (c : Char) : Char :=
  match c with
  | 'A' => 'a' | 'B' => 'b' | 'C' => 'c' | 'D' => 'd' | 'E' => 'e' | 'F' => 'f'
  | 'G' => 'g' | 'H' => 'h' | 'I' => 'i' | 'J' => 'j' | 'K' => 'k' | 'L' => 'l'
  | 'M' => 'm' | 'N' => 'n' | 'O' => 'o' | 'P' => 'p' | 'Q' => 'q' | 'R' => 'r'
  | 'S' => 's' | 'T' => 't' | 'U' => 'u' | 'V' => 'v' | 'W' => 'w' | 'X' => 'x'
  | 'Y' => 'y' | 'Z' => 'z'
  | c => c

/-- Model of Python `str.lower()`. -/
def pyLower (s : String) : String := ⟨s.data.map toLowerCh⟩

/-- Strip leading and trailing whitespace from a character list. -/
def stripChars (l : List Char) : List Char :=
  ((l.dropWhile isSpaceCh).reverse.dropWhile isSpaceCh).reverse

/-- Model of Python `str.strip()`. -/
def pyStrip (s : String) : String := ⟨stripChars s.data⟩

/-- Numeric value of a list of decimal digit characters. -/
def digitsVal (l : List Char) : Nat :=
  l.foldl (fun a c => a * 10 + (c.toNat - 48)) 0

/-- Model of Python `int(s)` on an already whitespace-free string: an optional
sign followed by at least one decimal digit; anything else raises
(`none` models the raised `ValueError`). -/
def pyInt? (s : String) : Option Int :=
  match s.data with
  | [] => none
  | '-' :: rest =>
    if !rest.isEmpty && rest.all Char.isDigit then some (-(digitsVal rest : Int)) else none
  | '+' :: rest =>
    if !rest.isEmpty && rest.all Char.isDigit then some (digitsVal rest : Int) else none
  | l =>
    if l.all Char.isDigit then some (digitsVal l : Int) else none

/-! ## Store model (the `students` collection of `db.py` / `tools.py`) -/

/-- A student document as created by `add_student` in `tools.py`. -/
structure Student where
  name : String
  student_id : Int
  department : String
  email : String
  created_at : Nat
deriving DecidableEq

/-- The `students` collection: documents in insertion (natural) order. -/
abbrev Store := List Student

/-- The two query shapes the student tools build for the document store. -/
inductive MongoQuery where
  | byEmail (e : String)
  | bySid (i : Int)
deriving DecidableEq

/-- Whether a document matches a query. -/
def matchesQ (q : MongoQuery) (s : Student) : Bool :=
  match q with
  | .byEmail e => s.email == e
  | .bySid i => s.student_id == i

/-- Model of `find_one`: first matching document in natural order. -/
def findOne (st : Store) (q : MongoQuery) : Option Student :=
  List.find? (matchesQ q) st

/-- Model of `update_one`: rewrite the first matching document; returns the
matched count and the new store. -/
def updateOne (st : Store) (q : MongoQuery) (f : Student → Student) : Nat × Store :=
  match st with
  | [] => (0, [])
  | s :: rest =>
    if matchesQ q s then (1, f s :: rest)
    else
      let r := updateOne rest q f
      (r.1, s :: r.2)

/-- Model of `delete_one`: remove the first matching document; returns the
deleted count and the new store. -/
def deleteOne (st : Store) (q : MongoQuery) : Nat × Store :=
  match st with
  | [] => (0, [])
  | s :: rest =>
    if matchesQ q s then (1, rest)
    else
      let r := deleteOne rest q
      (r.1, s :: r.2)

/-! ## The student tools of `tools.py`

Each tool that takes a student identifier repeats the same resolution code in
the source; the repetitions are translated separately (one definition per
tool, from that tool's own lines) so that their agreement is a theorem, not a
modelling choice. -/

/-- Result of `add_student`: either the error dict or the success dict
(`message` plus the inserted document). -/
inductive AddResult where
  | err (msg : String)
  | ok (msg : String) (s : Student)
deriving DecidableEq

/-- `add_student` (tools.py lines 14-31).  `now` is the `datetime.utcnow()`
reading at the call. -/
def add_student (name : String) (student_id : Int) (department : String)
    (email : String) (now : Nat) (st : Store) : AddResult × Store :=
  let email := pyStrip (pyLower email)
  if (findOne st (.byEmail email)).isSome then
    (.err ("Student with email " ++ email ++ " already exists"), st)
  else
    let s : Student :=
      { name := name, student_id := student_id, department := department,
        email := email, created_at := now }
    (.ok "Student added successfully" s, st ++ [s])

/-- Result of `get_student`: the error dict or the student document. -/
inductive GetResult where
  | err (msg : String)
  | ok (s : Student)
deriving DecidableEq

/-- Identifier resolution as written inside `get_student`
(tools.py lines 39-46): strip, exact match on the lowercased string against
`email`, else parse as `int` and match against `student_id`. -/
def resolveGet (identifier : String) (st : Store) : Option Student :=
  match findOne st (.byEmail (pyLower (pyStrip identifier))) with
  | some s => some s
  | none =>
    match pyInt? (pyStrip identifier) with
    | some sid => findOne st (.bySid sid)
    | none => none

/-- `get_student` (tools.py lines 34-50). -/
def get_student (identifier : String) (st : Store) : GetResult :=
  match resolveGet identifier st with
  | none => .err "Student not found"
  | some s => .ok s

/-- Result of `update_student`: error dict, success dict, or an uncaught
`TypeError` escaping the tool (the source subscripts the result of the final
`find_one` without a `None` check). -/
inductive UpdateResult where
  | err (msg : String)
  | ok (msg : String) (s : Student)
  | raised
deriving DecidableEq

/-- Query construction as written inside `update_student`
(tools.py lines 59-66): query by lowercased email; if that matches nothing,
try to replace it by a `student_id` query, keeping the email query when the
integer parse raises. -/
def queryOfUpdate (identifier : String) (st : Store) : MongoQuery :=
  if (findOne st (.byEmail (pyLower (pyStrip identifier)))).isSome then
    .byEmail (pyLower (pyStrip identifier))
  else
    match pyInt? (pyStrip identifier) with
    | some sid => .bySid sid
    | none => .byEmail (pyLower (pyStrip identifier))

/-- Common tail of `update_student` (tools.py lines 82-87): run `update_one`,
report not-found on matched count zero, otherwise re-fetch with `findQ` and
return the success dict; a `None` re-fetch makes the source raise. -/
def finishUpdate (st : Store) (q : MongoQuery) (setter : Student → Student)
    (findQ : MongoQuery) : UpdateResult × Store :=
  let r := updateOne st q setter
  if r.1 == 0 then (.err "Student not found", r.2)
  else
    match findOne r.2 findQ with
    | some s => (.ok "Student updated successfully" s, r.2)
    | none => (.raised, r.2)

/-- `update_student` (tools.py lines 53-87). -/
def update_student (identifier : String) (field : String) (new_value : String)
    (st : Store) : UpdateResult × Store :=
  let query := queryOfUpdate identifier st
  if !(field == "name" || field == "department" || field == "email"
      || field == "student_id") then
    (.err "Invalid field", st)
  else if field == "email"
      && (findOne st (.byEmail (pyStrip (pyLower new_value)))).isSome then
    (.err ("Student with email " ++ pyStrip (pyLower new_value)
      ++ " already exists"), st)
  else if field == "student_id" then
    match pyInt? new_value with
    | none => (.err "student_id must be an integer", st)
    | some n => finishUpdate st query (fun s => { s with student_id := n }) query
  else
    let setter : Student → Student := fun s =>
      if field == "name" then { s with name := new_value }
      else if field == "department" then { s with department := new_value }
      else { s with email := new_value }
    let findQ := if field == "email" then MongoQuery.byEmail new_value else query
    finishUpdate st query setter findQ

/-- Result of `delete_student`: error dict or confirmation message. -/
inductive DelResult where
  | err (msg : String)
  | ok (msg : String)
deriving DecidableEq

/-- Query construction as written inside `delete_student`
(tools.py lines 94-101), the same lines repeated verbatim in the source. -/
def queryOfDelete (identifier : String) (st : Store) : MongoQuery :=
  if (findOne st (.byEmail (pyLower (pyStrip identifier)))).isSome then
    .byEmail (pyLower (pyStrip identifier))
  else
    match pyInt? (pyStrip identifier) with
    | some sid => .bySid sid
    | none => .byEmail (pyLower (pyStrip identifier))

/-- `delete_student` (tools.py lines 90-106). -/
def delete_student (identifier : String) (st : Store) : DelResult × Store :=
  let r := deleteOne st (queryOfDelete identifier st)
  if r.1 == 0 then (.err "Student not found", r.2)
  else (.ok "Student deleted successfully", r.2)

/-- Result of `send_email`: error dict or mock confirmation. -/
inductive SendResult where
  | err (msg : String)
  | ok (msg : String)
deriving DecidableEq

/-- Identifier resolution as written inside `send_email`
(tools.py lines 202-209). -/
def resolveSend (student_identifier : String) (st : Store) : Option Student :=
  match findOne st (.byEmail (pyLower (pyStrip student_identifier))) with
  | some s => some s
  | none =>
    match pyInt? (pyStrip student_identifier) with
    | some sid => findOne st (.bySid sid)
    | none => none

/-- `send_email` (tools.py lines 197-214); the console print is elided, the
store is read-only here. -/
def send_email (student_identifier : String) (message : String) (st : Store) :
    SendResult :=
  match resolveSend student_identifier st with
  | none => .err "Student not found"
  | some s => .ok ("Email mock sent to " ++ s.email)

/-! ## The `PUT /students` route of `main.py` -/

/-- Outcome of an HTTP route: a success body or an `HTTPException` with a
status code and detail string. -/
inductive HttpOutcome where
  | ok (msg : String) (s : Student)
  | errResp (status : Nat) (detail : String)
deriving DecidableEq

/-- Model of main.py's POSITIONAL call of a `@tool`-wrapped function, e.g.
`update_student(identifier, update["field"], update["new_value"])` on line
163: the `@tool` decorator of `tools.py` turns the function into a
`StructuredTool` object, which is not callable with positional arguments in
any version of the library, so the call raises `TypeError` and the wrapped
tool body never runs. -/
def callToolPositional {α : Type} (_toolBody : Store → α × Store) :
    Except String (α × Store) :=
  .error "TypeError"

/-- `api_update_student` (main.py lines 159-166), after the request-body
validation that `field` and `new_value` are present.  Line 163 calls the
`@tool`-wrapped `update_student` object with three positional arguments,
which raises `TypeError`; the framework answers such an unhandled exception
with the plain 500 `Internal Server Error`, and the route's own written
mapping below the call (tool error payload re-raised as a 400) is
unreachable, as is the tool body itself. -/
def api_update_student (identifier : String) (field : String)
    (new_value : String) (st : Store) : HttpOutcome × Store :=
  match callToolPositional (update_student identifier field new_value) with
  | .error _ => (.errResp 500 "Internal Server Error", st)
  | .ok (.err m, st') => (.errResp 400 m, st')
  | .ok (.ok m s, st') => (.ok m s, st')
  | .ok (.raised, st') => (.errResp 500 "Internal Server Error", st')

/-! ## The agent dispatch of `agent.py`

The language model is an opaque capability: a function from the message list
to a response carrying content and a (possibly empty) tool-call list.  A
registered tool is a name plus a runner; the runner's `Except` models the
`try/except` around `tool.invoke` in the source (an `error` is the caught
exception's text). -/

/-- A tool call as found on a model response. -/
structure ToolCall where
  name : String
  args : String
  id : String
deriving DecidableEq

/-- A conversation message (`HumanMessage | AIMessage | ToolMessage`). -/
inductive Msg where
  | human (content : String)
  | ai (content : String) (tool_calls : List ToolCall)
  | toolMsg (content : String) (tool_call_id : String)
deriving DecidableEq

/-- A model response: content plus requested tool calls. -/
structure LLMResponse where
  content : String
  tool_calls : List ToolCall
deriving DecidableEq

/-- A registered tool object as produced by the `@tool` decorator (a
`StructuredTool`): it carries a `name` field and a runner; the runner's
`Except` models the `try/except` around `tool.invoke` in the source (an
`error` is the caught exception's text).  Being a class instance, the object
exposes NO `__name__` attribute. -/
structure RTool where
  name : String
  run : String → Except String String

/-- Stand-in text for the `AttributeError` raised by `t.__name__` on a
`StructuredTool` (the interpreter's exact message wording is a library
detail). -/
def attributeErrorText : String :=
  "StructuredTool object has no attribute __name__"

/-- The tool lookup as written on agent.py line 50:
`next((t for t in tools if t.__name__ == tool_name), None)`.  The generator
evaluates `t.__name__` on its first element, and the registered
`StructuredTool` objects have a `name` field but no `__name__` attribute, so
any non-empty registry raises `AttributeError` at once; only the empty
registry exhausts the generator and yields the `None` default.  The lookup
sits OUTSIDE the `try/except` of agent.py, so the error propagates. -/
def findToolByDunder (tools : List RTool) (_tool_name : String) :
    Except String (Option RTool) :=
  match tools with
  | [] => .ok none
  | _ :: _ => .error attributeErrorText

/-- `agent_node` (agent.py lines 39-74): one model invocation; if the response
carries tool calls, look the first one up with `t.__name__` (which raises on
any non-empty registry, making the found-tool branches below unreachable),
and append the response plus the tool observation; with no tool calls append
the response alone.  An `error` result is an exception escaping the node. -/
def agent_node (llm : List Msg → LLMResponse) (tools : List RTool)
    (messages : List Msg) : Except String (List Msg) :=
  let response := llm messages
  match response.tool_calls with
  | [] => .ok (messages ++ [.ai response.content response.tool_calls])
  | tc :: _ =>
    match findToolByDunder tools tc.name with
    | .error e => .error e
    | .ok (some t) =>
      match t.run tc.args with
      | .ok r =>
        .ok (messages ++
          [.ai response.content response.tool_calls, .toolMsg r tc.id])
      | .error e =>
        .ok (messages ++ [.ai response.content response.tool_calls,
          .toolMsg ("Error calling " ++ tc.name ++ ": " ++ e) tc.id])
    | .ok none =>
      .ok (messages ++ [.ai response.content response.tool_calls,
        .toolMsg ("Tool " ++ tc.name ++ " not found") tc.id])

/-- The compiled workflow (agent.py lines 77-80, 89): a `StateGraph` whose
single node is `agent_node`, whose entry point is that node, and whose only
edge goes from that node to `END` — so one invocation of `agent_node` runs,
the graph stops, and an exception raised inside the node propagates to the
caller of `invoke`. -/
def agent_invoke (llm : List Msg → LLMResponse) (tools : List RTool)
    (state : List Msg) : Except String (List Msg) :=
  agent_node llm tools state

/-- Outcome of the `/chat` route: the `{"response": ...}` body or an
`HTTPException` with status and detail. -/
inductive ChatOutcome where
  | response (content : String)
  | httpError (status : Nat) (detail : String)
deriving DecidableEq

/-- Stand-in text for the `TypeError` raised by `await` of the plain dict
returned by the synchronous `agent.invoke` (exact interpreter wording
elided). -/
def awaitDictError : String :=
  "object dict cannot be used in await expression"

/-- The `/chat` endpoint core (main.py lines 89-104) on a fresh thread.  The
whole body runs inside `try/except Exception`, whose handler re-raises every
exception — the route's own `HTTPException`s included — as
`HTTPException(500, "Chat error: " + str(e))`.  An empty query's 400 is so
rewrapped; an exception escaping `agent.invoke` (the dispatch's
`AttributeError`) is so rewrapped; and when `invoke` does return, line 99
`await`s the plain dict it produced, raising `TypeError` before the
last-message check on lines 100-101 can run — so that check, its
`Invalid response from agent` detail and the `response` return on line 102
are unreachable. -/
def chat_agent (llm : List Msg → LLMResponse) (tools : List RTool)
    (q : String) : ChatOutcome :=
  if pyStrip q == "" then
    .httpError 500 ("Chat error: " ++ "400: Query cannot be empty")
  else
    match agent_invoke llm tools [.human q] with
    | .error e => .httpError 500 ("Chat error: " ++ e)
    | .ok _result => .httpError 500 ("Chat error: " ++ awaitDictError)

/-! ## Basic lemmas about the string model and the store -/

theorem isSpace_toLowerCh (c : Char) : isSpaceCh (toLowerCh c) = isSpaceCh c := by
  unfold toLowerCh
  split <;> rfl

theorem stripChars_map_toLower (l : List Char) :
    stripChars (l.map toLowerCh) = (stripChars l).map toLowerCh := by
  have hp : (isSpaceCh ∘ toLowerCh) = isSpaceCh := by
    funext c; exact isSpace_toLowerCh c
  unfold stripChars
  rw [List.dropWhile_map, hp, ← List.map_reverse, List.dropWhile_map, hp,
    ← List.map_reverse]

theorem pyStrip_pyLower (s : String) :
    pyStrip (pyLower s) = pyLower (pyStrip s) := by
  unfold pyStrip pyLower
  exact congrArg String.mk (stripChars_map_toLower s.data)

theorem find?_eq_some_of_unique {α : Type} {p : α → Bool} {r : α} :
    ∀ {l : List α}, r ∈ l → p r = true → (∀ x ∈ l, p x = true → x = r) →
    l.find? p = some r
  | [], h, _, _ => absurd h (List.not_mem_nil r)
  | a :: l, h, hr, hu => by
    by_cases ha : p a = true
    · have : a = r := hu a (List.mem_cons_self a l) ha
      subst this
      simp [List.find?_cons_of_pos _ ha]
    · have ha' : ¬ p a := by simpa using ha
      rw [List.find?_cons_of_neg _ ha']
      have hml : r ∈ l := by
        rcases List.mem_cons.mp h with h1 | h1
        · exact absurd (h1 ▸ hr) (by simpa using ha)
        · exact h1
      exact find?_eq_some_of_unique hml hr
        (fun x hx hpx => hu x (List.mem_cons_of_mem a hx) hpx)

example : pyStrip "  aB c " = "aB c" := by decide
example : pyLower "AB@X.Com" = "ab@x.com" := by decide
example : pyInt? "5" = some 5 := by decide
example : pyInt? "-12" = some (-12) := by decide
example : pyInt? "ghost" = none := by decide
example : pyInt? "" = none := by decide
example : pyStrip (pyLower " AB@X.Com ") = "ab@x.com" := by decide

/-- Number of stored documents carrying the given email. -/
def countEmail (st : Store) (e : String) : Nat :=
  (st.filter (fun r => r.email == e)).length

/-! ## Claims -/

/-- Claim C3: for every raw identifier string and every store state, the four
student-targeted tools `get_student`, `update_student`, `delete_student` and
`send_email` resolve the identifier to the same student record (or all to
nothing): the resolution written inside `get_student` agrees pointwise with
the query built inside `update_student`, with the query built inside
`delete_student`, and with the resolution written inside `send_email`. -/
theorem resolution_policy_consistent (st : Store) (s : String) :
    resolveGet s st = findOne st (queryOfUpdate s st) ∧
    resolveGet s st = findOne st (queryOfDelete s st) ∧
    resolveGet s st = resolveSend s st := by
  unfold resolveGet queryOfUpdate queryOfDelete resolveSend
  cases h : findOne st (MongoQuery.byEmail (pyLower (pyStrip s))) <;>
    cases hi : pyInt? (pyStrip s) <;>
      simp [h, hi]

/-- Claim C6: for every identifier and every field name outside the whitelist
`name`, `department`, `email`, `student_id`, `update_student` reports
`Invalid field` and returns with the store unchanged (no write occurs). -/
theorem update_invalid_field_noop (st : Store) (ident field v : String)
    (h : field ∉ (["name", "department", "email", "student_id"] : List String)) :
    update_student ident field v st = (.err "Invalid field", st) := by
  simp only [List.mem_cons, List.not_mem_nil, or_false, not_or] at h
  obtain ⟨h1, h2, h3, h4⟩ := h
  simp [update_student, h1, h2, h3, h4]

/-- Witness for `update_invalid_field_noop` at a concrete input. -/
theorem update_invalid_field_noop_witness :
    ("not_a_field" ∉ (["name", "department", "email", "student_id"] : List String)) ∧
    update_student "a@x.com" "not_a_field" "7"
        [⟨"A", 1, "CS", "a@x.com", 0⟩] =
      (.err "Invalid field", [⟨"A", 1, "CS", "a@x.com", 0⟩]) :=
  ⟨by decide,
   update_invalid_field_noop [⟨"A", 1, "CS", "a@x.com", 0⟩] "a@x.com"
     "not_a_field" "7" (by decide)⟩

/-- Demonstration oracle: always requests a call of a tool named
`no_such_tool`. -/
def llmMissingTool : List Msg → LLMResponse := fun _ =>
  { content := "x", tool_calls := [⟨"no_such_tool", "", "id-7"⟩] }

/-- Demonstration registry holding one registered tool, standing for the
thirteen `StructuredTool` objects bound in agent.py. -/
def toolsDemo : List RTool := [⟨"get_total_students", fun _ => .ok "0"⟩]

/-- Claim C2, evaluated at the failing input: with a non-empty registry (here
one registered tool; agent.py binds thirteen) and a model response requesting
a tool call, the dispatch raises the attribute error of the `t.__name__`
lookup out of the loop and appends NO observation turn — only the
empty-registry corner, where the lookup's generator is exhausted, still
appends the tool-not-found observation and returns normally. -/
theorem dispatch_lookup_crash_code_bug :
    (llmMissingTool []).tool_calls = [⟨"no_such_tool", "", "id-7"⟩] ∧
    agent_node llmMissingTool toolsDemo [] = .error attributeErrorText ∧
    agent_node llmMissingTool [] [] =
      .ok [.ai "x" [⟨"no_such_tool", "", "id-7"⟩],
        .toolMsg "Tool no_such_tool not found" "id-7"] := by
  refine ⟨rfl, rfl, rfl⟩

theorem finishUpdate_ok {st st' : Store} {q fq : MongoQuery}
    {setter : Student → Student} {m : String} {s' : Student}
    (h : finishUpdate st q setter fq = (.ok m s', st')) :
    findOne st' fq = some s' := by
  simp only [finishUpdate] at h
  split at h
  · simp at h
  · split at h
    next s hfind =>
      simp only [Prod.mk.injEq, UpdateResult.ok.injEq] at h
      obtain ⟨⟨hm, hs⟩, hst⟩ := h
      rw [← hst, ← hs]
      exact hfind
    next hfind => simp at h

/-- Claim C9: a successful `update_student` on field `email` stores the new
value verbatim — the record returned (re-fetched from the written store by the
new email) carries exactly the caller's string, not its lowercased or trimmed
form, and that record is in the store — even though the duplicate check
lowercases and trims the same value. -/
theorem update_email_written_verbatim (st st' : Store) (ident v m : String)
    (s' : Student)
    (h : update_student ident "email" v st = (.ok m s', st')) :
    s'.email = v ∧ s' ∈ st' := by
  simp only [update_student] at h
  rw [show ((("email" : String) == "name" || ("email" : String) == "department"
      || ("email" : String) == "email" || ("email" : String) == "student_id")) = true
    from rfl] at h
  rw [show (("email" : String) == "email") = true from rfl] at h
  rw [show (("email" : String) == "student_id") = false from rfl] at h
  simp only [Bool.not_true, Bool.true_and, Bool.false_eq_true, if_false,
    Bool.if_false_left] at h
  split at h
  · simp at h
  · have hfind := finishUpdate_ok h
    refine ⟨?_, List.mem_of_find?_eq_some hfind⟩
    have := List.find?_some hfind
    simpa [matchesQ] using this

/-- Claim C10: when the identifier resolves to a stored student whose current
email equals the case-normalized form of the new value, `update_student` on
field `email` returns the already-exists conflict (the duplicate check does
not exclude the record being updated) and leaves the store unchanged. -/
theorem update_email_self_conflict (st : Store) (ident v : String) (r : Student)
    (hres : findOne st (queryOfUpdate ident st) = some r)
    (he : r.email = pyStrip (pyLower v)) :
    update_student ident "email" v st =
      (.err ("Student with email " ++ pyStrip (pyLower v) ++ " already exists"),
        st) := by
  have hr : r ∈ st := List.mem_of_find?_eq_some hres
  have hdup : (findOne st (.byEmail (pyStrip (pyLower v)))).isSome = true := by
    rw [findOne, List.find?_isSome]
    exact ⟨r, hr, by simp [matchesQ, he]⟩
  simp only [update_student]
  rw [show ((("email" : String) == "name" || ("email" : String) == "department"
      || ("email" : String) == "email" || ("email" : String) == "student_id")) = true
    from rfl]
  rw [show (("email" : String) == "email") = true from rfl]
  simp [hdup]

/-- Witness for `update_email_self_conflict` at a concrete input: a record
stored as `a@x.com`, updated by its own email to `A@X.COM`. -/
theorem update_email_self_conflict_witness :
    findOne [⟨"A", 1, "CS", "a@x.com", 0⟩]
        (queryOfUpdate "a@x.com" [⟨"A", 1, "CS", "a@x.com", 0⟩]) =
      some ⟨"A", 1, "CS", "a@x.com", 0⟩ ∧
    (⟨"A", 1, "CS", "a@x.com", 0⟩ : Student).email = pyStrip (pyLower "A@X.COM") ∧
    update_student "a@x.com" "email" "A@X.COM" [⟨"A", 1, "CS", "a@x.com", 0⟩] =
      (.err ("Student with email " ++ pyStrip (pyLower "A@X.COM")
        ++ " already exists"), [⟨"A", 1, "CS", "a@x.com", 0⟩]) :=
  ⟨by decide, by decide,
   update_email_self_conflict [⟨"A", 1, "CS", "a@x.com", 0⟩] "a@x.com" "A@X.COM"
     ⟨"A", 1, "CS", "a@x.com", 0⟩ (by decide) (by decide)⟩

/-- Witness for `update_email_written_verbatim` at a concrete input: updating
the email to `NEW@X.COM` stores and returns `NEW@X.COM` exactly. -/
theorem update_email_written_verbatim_witness :
    update_student "a@x.com" "email" "NEW@X.COM" [⟨"A", 1, "CS", "a@x.com", 0⟩] =
      (.ok "Student updated successfully" ⟨"A", 1, "CS", "NEW@X.COM", 0⟩,
        [⟨"A", 1, "CS", "NEW@X.COM", 0⟩]) ∧
    (⟨"A", 1, "CS", "NEW@X.COM", 0⟩ : Student).email = "NEW@X.COM" ∧
    ⟨"A", 1, "CS", "NEW@X.COM", 0⟩ ∈ ([⟨"A", 1, "CS", "NEW@X.COM", 0⟩] : Store) :=
  ⟨by decide,
   (update_email_written_verbatim [⟨"A", 1, "CS", "a@x.com", 0⟩]
     [⟨"A", 1, "CS", "NEW@X.COM", 0⟩] "a@x.com" "NEW@X.COM"
     "Student updated successfully" ⟨"A", 1, "CS", "NEW@X.COM", 0⟩ (by decide)).1,
   (update_email_written_verbatim [⟨"A", 1, "CS", "a@x.com", 0⟩]
     [⟨"A", 1, "CS", "NEW@X.COM", 0⟩] "a@x.com" "NEW@X.COM"
     "Student updated successfully" ⟨"A", 1, "CS", "NEW@X.COM", 0⟩ (by decide)).2⟩

/-- Whether an `add_student` call reported an error. -/
def isAddErr : AddResult → Bool
  | .err _ => true
  | .ok _ _ => false

/-- Counterexample to claim C5 as stated: when the store already holds a
record with the shared normalized email, BOTH `add_student` calls return the
conflict error, so the number of erroring calls is two, not exactly one. -/
theorem add_student_duplicate_both_error :
    isAddErr (add_student "P" 2 "CS" "a@x.com" 1 [⟨"X", 1, "CS", "a@x.com", 0⟩]).1
        = true ∧
    isAddErr (add_student "Q" 3 "CS" "a@x.com" 2
        (add_student "P" 2 "CS" "a@x.com" 1 [⟨"X", 1, "CS", "a@x.com", 0⟩]).2).1
        = true ∧
    ((if isAddErr (add_student "P" 2 "CS" "a@x.com" 1
        [⟨"X", 1, "CS", "a@x.com", 0⟩]).1 then 1 else 0)
      + (if isAddErr (add_student "Q" 3 "CS" "a@x.com" 2
        (add_student "P" 2 "CS" "a@x.com" 1 [⟨"X", 1, "CS", "a@x.com", 0⟩]).2).1
        then 1 else 0) : Nat) ≠ 1 := by
  decide

/-- Claim C5 (amended): for every store state holding no record with the
calls' shared normalized email, of two `add_student` calls with that email the
first succeeds and the second returns the already-exists conflict; exactly one
record with that email exists afterwards, and the erroring call leaves the
store unchanged. -/
theorem add_student_duplicate_conflict (st : Store)
    (n1 : String) (i1 : Int) (d1 e1 : String) (t1 : Nat)
    (n2 : String) (i2 : Int) (d2 e2 : String) (t2 : Nat)
    (hnorm : pyStrip (pyLower e1) = pyStrip (pyLower e2))
    (hfree : ∀ r ∈ st, r.email ≠ pyStrip (pyLower e1)) :
    (add_student n1 i1 d1 e1 t1 st).1 =
      .ok "Student added successfully"
        ⟨n1, i1, d1, pyStrip (pyLower e1), t1⟩ ∧
    (add_student n2 i2 d2 e2 t2 (add_student n1 i1 d1 e1 t1 st).2).1 =
      .err ("Student with email " ++ pyStrip (pyLower e2) ++ " already exists") ∧
    (add_student n2 i2 d2 e2 t2 (add_student n1 i1 d1 e1 t1 st).2).2 =
      (add_student n1 i1 d1 e1 t1 st).2 ∧
    countEmail (add_student n2 i2 d2 e2 t2 (add_student n1 i1 d1 e1 t1 st).2).2
      (pyStrip (pyLower e1)) = 1 := by
  have h1 : findOne st (.byEmail (pyStrip (pyLower e1))) = none := by
    rw [findOne, List.find?_eq_none]
    intro x hx
    simp [matchesQ, hfree x hx]
  have hst1 : (add_student n1 i1 d1 e1 t1 st).2 =
      st ++ [⟨n1, i1, d1, pyStrip (pyLower e1), t1⟩] := by
    simp [add_student, h1]
  have h2 : findOne (st ++ [⟨n1, i1, d1, pyStrip (pyLower e1), t1⟩])
      (.byEmail (pyStrip (pyLower e2))) =
      some ⟨n1, i1, d1, pyStrip (pyLower e1), t1⟩ := by
    rw [← hnorm, findOne, List.find?_append]
    rw [show List.find? (matchesQ (.byEmail (pyStrip (pyLower e1)))) st = none
      from h1]
    simp [matchesQ]
  refine ⟨by simp [add_student, h1], ?_, ?_, ?_⟩
  · rw [hst1]
    simp [add_student, h2]
  · rw [hst1]
    simp [add_student, h2]
  · rw [hst1]
    simp only [add_student, hst1, h2, Option.isSome_some, if_true]
    rw [countEmail, List.filter_append]
    rw [show st.filter (fun r => r.email == pyStrip (pyLower e1)) = [] from by
      rw [List.filter_eq_nil_iff]
      intro a ha
      simp [hfree a ha]]
    simp

/-- Witness for `add_student_duplicate_conflict` at a concrete input. -/
theorem add_student_duplicate_conflict_witness :
    pyStrip (pyLower "a@x.com") = pyStrip (pyLower " A@X.com ") ∧
    (∀ r ∈ ([] : Store), r.email ≠ pyStrip (pyLower "a@x.com")) ∧
    (add_student "P" 2 "CS" "a@x.com" 1 []).1 =
      .ok "Student added successfully" ⟨"P", 2, "CS", pyStrip (pyLower "a@x.com"), 1⟩ ∧
    (add_student "Q" 3 "CS" " A@X.com " 2 (add_student "P" 2 "CS" "a@x.com" 1 []).2).1 =
      .err ("Student with email " ++ pyStrip (pyLower " A@X.com ") ++ " already exists") ∧
    (add_student "Q" 3 "CS" " A@X.com " 2 (add_student "P" 2 "CS" "a@x.com" 1 []).2).2 =
      (add_student "P" 2 "CS" "a@x.com" 1 []).2 ∧
    countEmail (add_student "Q" 3 "CS" " A@X.com " 2
      (add_student "P" 2 "CS" "a@x.com" 1 []).2).2 (pyStrip (pyLower "a@x.com")) = 1 :=
  ⟨by decide, by decide,
   (add_student_duplicate_conflict [] "P" 2 "CS" "a@x.com" 1 "Q" 3 "CS" " A@X.com " 2
     (by decide) (by decide)).1,
   (add_student_duplicate_conflict [] "P" 2 "CS" "a@x.com" 1 "Q" 3 "CS" " A@X.com " 2
     (by decide) (by decide)).2.1,
   (add_student_duplicate_conflict [] "P" 2 "CS" "a@x.com" 1 "Q" 3 "CS" " A@X.com " 2
     (by decide) (by decide)).2.2.1,
   (add_student_duplicate_conflict [] "P" 2 "CS" "a@x.com" 1 "Q" 3 "CS" " A@X.com " 2
     (by decide) (by decide)).2.2.2⟩

/-- Claim C7: on any store not yet holding the email, `add_student` succeeds
and a following `get_student` with the very same raw email argument returns a
record whose `name`, `student_id`, `department` and `email` fields equal the
inputs, the email in its case-normalized (lowercased, trimmed) form. -/
theorem add_get_roundtrip (st : Store) (n : String) (i : Int) (d e : String)
    (now : Nat)
    (hfree : ∀ r ∈ st, r.email ≠ pyStrip (pyLower e)) :
    (add_student n i d e now st).1 =
      .ok "Student added successfully" ⟨n, i, d, pyStrip (pyLower e), now⟩ ∧
    get_student e (add_student n i d e now st).2 =
      .ok ⟨n, i, d, pyStrip (pyLower e), now⟩ := by
  have h1 : findOne st (.byEmail (pyStrip (pyLower e))) = none := by
    rw [findOne, List.find?_eq_none]
    intro x hx
    simp [matchesQ, hfree x hx]
  have hst1 : (add_student n i d e now st).2 =
      st ++ [⟨n, i, d, pyStrip (pyLower e), now⟩] := by
    simp [add_student, h1]
  refine ⟨by simp [add_student, h1], ?_⟩
  rw [hst1]
  have hq : pyLower (pyStrip e) = pyStrip (pyLower e) := (pyStrip_pyLower e).symm
  have hfind : findOne (st ++ [⟨n, i, d, pyStrip (pyLower e), now⟩])
      (.byEmail (pyLower (pyStrip e))) =
      some ⟨n, i, d, pyStrip (pyLower e), now⟩ := by
    rw [hq, findOne, List.find?_append]
    rw [show List.find? (matchesQ (.byEmail (pyStrip (pyLower e)))) st = none
      from h1]
    simp [matchesQ]
  simp [get_student, resolveGet, hfind]

/-- Witness for `add_get_roundtrip` at a concrete input with an email that is
neither lowercase nor trimmed. -/
theorem add_get_roundtrip_witness :
    (∀ r ∈ ([] : Store), r.email ≠ pyStrip (pyLower " Ali@X.Com ")) ∧
    (add_student "Ali" 42 "CS" " Ali@X.Com " 5 []).1 =
      .ok "Student added successfully" ⟨"Ali", 42, "CS", pyStrip (pyLower " Ali@X.Com "), 5⟩ ∧
    get_student " Ali@X.Com " (add_student "Ali" 42 "CS" " Ali@X.Com " 5 []).2 =
      .ok ⟨"Ali", 42, "CS", pyStrip (pyLower " Ali@X.Com "), 5⟩ :=
  ⟨by decide,
   (add_get_roundtrip [] "Ali" 42 "CS" " Ali@X.Com " 5 (by decide)).1,
   (add_get_roundtrip [] "Ali" 42 "CS" " Ali@X.Com " 5 (by decide)).2⟩

/-- Counterexample to claim C4 as stated: in a reachable store a record B has
a unique email and a unique integer id, yet resolving the digit string of
B's id returns a DIFFERENT record, because another record's email is literally
that digit string and the email match is tried first. -/
theorem get_student_str_id_shadowed :
    (∀ r ∈ ([⟨"A", 7, "CS", "5", 0⟩, ⟨"B", 5, "CS", "b@x.com", 1⟩] : Store),
      r.email = "b@x.com" → r = ⟨"B", 5, "CS", "b@x.com", 1⟩) ∧
    (∀ r ∈ ([⟨"A", 7, "CS", "5", 0⟩, ⟨"B", 5, "CS", "b@x.com", 1⟩] : Store),
      r.student_id = 5 → r = ⟨"B", 5, "CS", "b@x.com", 1⟩) ∧
    get_student "b@x.com" [⟨"A", 7, "CS", "5", 0⟩, ⟨"B", 5, "CS", "b@x.com", 1⟩] =
      .ok ⟨"B", 5, "CS", "b@x.com", 1⟩ ∧
    pyInt? "5" = some 5 ∧
    get_student "5" [⟨"A", 7, "CS", "5", 0⟩, ⟨"B", 5, "CS", "b@x.com", 1⟩] =
      .ok ⟨"A", 7, "CS", "5", 0⟩ ∧
    get_student "5" [⟨"A", 7, "CS", "5", 0⟩, ⟨"B", 5, "CS", "b@x.com", 1⟩] ≠
      .ok ⟨"B", 5, "CS", "b@x.com", 1⟩ := by
  decide

/-- Claim C4 (amended): for a stored record whose email `E` and integer id `I`
are each unique in the store, provided `E` equals its own lowercased-trimmed
form and no stored email equals the identifier string carrying `I`,
`get_student` resolves both `E` and that digit string to the record; and an
identifier whose normalized form matches no stored email and whose integer
parse matches no stored id always yields the not-found error. -/
theorem get_student_resolution_amended :
    (∀ (st : Store) (r : Student) (sid : String),
      r ∈ st →
      (∀ x ∈ st, x.email = r.email → x = r) →
      (∀ x ∈ st, x.student_id = r.student_id → x = r) →
      pyLower (pyStrip r.email) = r.email →
      pyInt? (pyStrip sid) = some r.student_id →
      (∀ x ∈ st, x.email ≠ pyLower (pyStrip sid)) →
      get_student r.email st = .ok r ∧ get_student sid st = .ok r) ∧
    (∀ (st : Store) (s : String),
      (∀ x ∈ st, x.email ≠ pyLower (pyStrip s)) →
      (∀ n, pyInt? (pyStrip s) = some n → ∀ x ∈ st, x.student_id ≠ n) →
      get_student s st = .err "Student not found") := by
  constructor
  · intro st r sid hmem hue hui hnorm hparse hshadow
    constructor
    · have hfind : findOne st (.byEmail (pyLower (pyStrip r.email))) = some r := by
        rw [hnorm, findOne]
        refine find?_eq_some_of_unique hmem (by simp [matchesQ]) ?_
        intro x hx hpx
        exact hue x hx (by simpa [matchesQ] using hpx)
      simp [get_student, resolveGet, hfind]
    · have hnone : findOne st (.byEmail (pyLower (pyStrip sid))) = none := by
        rw [findOne, List.find?_eq_none]
        intro x hx
        simp [matchesQ, hshadow x hx]
      have hfind : findOne st (.bySid r.student_id) = some r := by
        rw [findOne]
        refine find?_eq_some_of_unique hmem (by simp [matchesQ]) ?_
        intro x hx hpx
        exact hui x hx (by simpa [matchesQ] using hpx)
      simp [get_student, resolveGet, hnone, hparse, hfind]
  · intro st s hemail hsid
    have hnone : findOne st (.byEmail (pyLower (pyStrip s))) = none := by
      rw [findOne, List.find?_eq_none]
      intro x hx
      simp [matchesQ, hemail x hx]
    simp only [get_student, resolveGet, hnone]
    cases hp : pyInt? (pyStrip s) with
    | none => rfl
    | some n =>
      have hnone2 : findOne st (.bySid n) = none := by
        rw [findOne, List.find?_eq_none]
        intro x hx
        simp [matchesQ, hsid n hp x hx]
      simp [hnone2]

/-- Witness for `get_student_resolution_amended` at concrete inputs: a
one-record store resolved by email and by id string, and a miss. -/
theorem get_student_resolution_amended_witness :
    (get_student "b@x.com" [⟨"B", 5, "CS", "b@x.com", 1⟩] =
        .ok ⟨"B", 5, "CS", "b@x.com", 1⟩ ∧
      get_student "5" [⟨"B", 5, "CS", "b@x.com", 1⟩] =
        .ok ⟨"B", 5, "CS", "b@x.com", 1⟩) ∧
    get_student "nonexistent" [⟨"B", 5, "CS", "b@x.com", 1⟩] =
      .err "Student not found" :=
  ⟨get_student_resolution_amended.1 [⟨"B", 5, "CS", "b@x.com", 1⟩]
      ⟨"B", 5, "CS", "b@x.com", 1⟩ "5" (by decide) (by decide) (by decide)
      (by decide) (by decide) (by decide),
   get_student_resolution_amended.2 [⟨"B", 5, "CS", "b@x.com", 1⟩] "nonexistent"
      (by decide) (by decide)⟩

/-- Claim C8, evaluated against the route as written: because line 163 calls
the `@tool`-wrapped `update_student` object with three positional arguments,
EVERY `PUT /students` request — a not-found identifier included — raises
`TypeError` and answers 500, never the claimed 404 (and never even the 400
that the route's own unreachable error mapping would produce); the store is
left untouched. -/
theorem api_update_put_returns_500 (st : Store) (identifier f v : String) :
    api_update_student identifier f v st =
      (.errResp 500 "Internal Server Error", st) ∧
    (api_update_student identifier f v st).1 ≠
      .errResp 404 "Student not found" := by
  refine ⟨rfl, by simp [api_update_student, callToolPositional]⟩

/-- Demonstration oracle for the dispatch turn: requests `get_total_students`
until a tool observation is the last message, then it would answer with no
tool calls — so a dispatcher that resubmitted the thread after the
observation would end with that assistant answer. -/
def llmDemo : List Msg → LLMResponse := fun msgs =>
  match msgs.getLast? with
  | some (.toolMsg _ _) => { content := "There are 0 students", tool_calls := [] }
  | _ => { content := "", tool_calls := [⟨"get_total_students", "", "call-1"⟩] }

/-- Claim C1, evaluated at the failing input.  With the registry bound in
agent.py (non-empty), a model response requesting a tool call makes the
dispatch raise at the `t.__name__` lookup before any observation is appended,
and `/chat` rewraps the escaping error as a 500 `Chat error`.  Even in the
corner where the dispatch completes (empty registry), the workflow — whose
only edge leads from the agent node to `END` — terminates after the single
model round with the tool-role observation last: the final assistant answer
the oracle stood ready to give on resubmission never appears, and `/chat`
still answers a 500 `Chat error` because it awaits the plain dict `invoke`
returned.  In no case is the thread resubmitted for another model round or
ended by a final assistant turn, as the claim requires. -/
theorem dispatch_single_round_code_bug :
    (llmDemo [Msg.human "how many students"]).tool_calls =
      [⟨"get_total_students", "", "call-1"⟩] ∧
    agent_invoke llmDemo toolsDemo [Msg.human "how many students"] =
      .error attributeErrorText ∧
    chat_agent llmDemo toolsDemo "how many students" =
      .httpError 500 ("Chat error: " ++ attributeErrorText) ∧
    agent_invoke llmDemo [] [Msg.human "how many students"] =
      .ok [Msg.human "how many students",
        Msg.ai "" [⟨"get_total_students", "", "call-1"⟩],
        Msg.toolMsg "Tool get_total_students not found" "call-1"] ∧
    chat_agent llmDemo [] "how many students" =
      .httpError 500 ("Chat error: " ++ awaitDictError) := by
  refine ⟨rfl, rfl, rfl, rfl, rfl⟩
